import Mathlib

/- A shallow embedding of src/app.py: the sliding-window rate limiter
   (rate_limit), the email authorization registry (EmailAuthManager),
   the email validator (validate_email) and the authorization gate
   (require_authorized_email), together with theorems settling the
   behavioral claims about them.

   Modelling conventions: Python strings are Lean Strings; time.time()
   values are integers; the global request_history dict is a total
   function from client key to timestamp list (absent key = empty list,
   matching dict.setdefault(ip, [])); Python str.strip()/str.lower() are
   modelled on the ASCII range, which covers every registry entry and
   every literal the claims mention. -/

namespace ConfirmaTelegram

/-! ## String helpers modelling the Python str operations used by app.py -/

/-- The whitespace test of Python str.strip (ASCII part): space (32),
tab (9), newline (10), carriage return (13), vertical tab (11), form
feed (12), compared by code point as Python character equality is. -/
def isWs (c : Char) : Bool :=
  decide (c.toNat = 32 ∨ c.toNat = 9 ∨ c.toNat = 10 ∨ c.toNat = 13 ∨
    c.toNat = 11 ∨ c.toNat = 12)

/-- ASCII lowercasing of one character, as Python str.lower acts on
the ASCII range: codes 65..90 are shifted up by 32, all else unchanged. -/
def lowerChar (c : Char) : Char :=
  if 65 ≤ c.toNat ∧ c.toNat ≤ 90 then Char.ofNat (c.toNat + 32) else c

/-- Python s.strip(): drop leading whitespace, then trailing whitespace. -/
def pyStrip (l : List Char) : List Char :=
  List.rdropWhile isWs (List.dropWhile isWs l)

/-- The normalization email.strip().lower() performed by
is_email_authorized (src/app.py line 117). -/
def normalizeEmail (s : String) : String :=
  String.mk ((pyStrip s.data).map lowerChar)

/-- Python single-character containment test: c in s. -/
def pyContains (s : String) (c : Char) : Bool := s.data.contains c

/-! ## EmailAuthManager (src/app.py lines 60..127) -/

/-- The hardcoded authorized-email set self.emails_autorizados
(src/app.py lines 66..79).  Modelled as a list used only through
membership, matching the Python set. -/
def emails_autorizados : List String :=
  [ "julioalbertolazarte00@gmail.com"
  , "am@dongaston.com.ar"
  , "horaciorojas@dongaston.com.ar"
  , "promayorista@hotmail.com"
  , "bernicucher@gmail.com"
  , "miguelbalbuena@dongaston.com.ar"
  , "jacosta@dongaston.com.ar"
  , "compras@dongaston.com.ar"
  , "dariocividini@dongaston.com.ar"
  , "acasella@dongaston.com.ar"
  , "cristinaaguirre@dongaston.com.ar.com" ]

/-- The hardcoded display-name table self.nombres_por_email
(src/app.py lines 81..94). -/
def nombres_por_email : List (String × String) :=
  [ ("julioalbertolazarte00@gmail.com", "JAL")
  , ("am@dongaston.com.ar", "Mauricio")
  , ("horaciorojas@dongaston.com.ar", "Horacio")
  , ("promayorista@hotmail.com", "Gastón")
  , ("bernicucher@gmail.com", "Bernardo")
  , ("miguelbalbuena@dongaston.com.ar", "Miguel")
  , ("jacosta@dongaston.com.ar", "Julio")
  , ("compras@dongaston.com.ar", "Eduardo")
  , ("dariocividini@dongaston.com.ar", "Dario")
  , ("acasella@dongaston.com.ar", "Alberto")
  , ("cristinaaguirre@dongaston.com.ar", "Cristina") ]

/-- EmailAuthManager.is_email_authorized (src/app.py lines 104..123):
empty input is rejected with "Email vacío"; otherwise the input is
normalized and the authorization flag (membership in emails_autorizados)
and the display name (nombres_por_email lookup, defaulting to
"Usuario desconocido") are computed independently. -/
def is_email_authorized (email : String) : Bool × String :=
  if email = "" then (false, "Email vacío")
  else
    let email_normalizado := normalizeEmail email
    let autorizado := emails_autorizados.contains email_normalizado
    let nombre := (nombres_por_email.lookup email_normalizado).getD "Usuario desconocido"
    (autorizado, nombre)

/-! ## validate_email (src/app.py lines 322..343) -/

/-- The blocked characters of validate_email (src/app.py line 339):
< > " (34) ' (39) ; \ (92) / ( ) left brace (123) right brace (125). -/
def suspicious_chars : List Char :=
  [ '<', '>', Char.ofNat 34, Char.ofNat 39, ';', Char.ofNat 92
  , '/', '(', ')', Char.ofNat 123, Char.ofNat 125 ]

/-- validate_email (src/app.py lines 322..343): reject empty input,
input missing an at sign or a dot, and input holding any suspicious
character; accept everything else. -/
def validate_email (email : String) : Bool :=
  if email = "" then false
  else if !(pyContains email '@') || !(pyContains email '.') then false
  else if suspicious_chars.any (fun c => pyContains email c) then false
  else true

/-! ## The rate limiter (src/app.py lines 168..197) -/

/-- The configuration the rate_limit decorator reads
(Config.RATE_LIMIT and Config.RATE_WINDOW, src/app.py lines 48..49). -/
structure RLConfig where
  RATE_LIMIT : Nat
  RATE_WINDOW : Int

/-- The global request_history dict (src/app.py line 169), as a total
function: a key not yet seen maps to [], matching setdefault(ip, []). -/
def RequestHistory : Type := String → List Int

/-- One pass through the rate_limit wrapper (src/app.py lines 174..196)
for one request: prune the client's history to the timestamps within the
window, write the pruned list back, then either reject (returning false,
the 429 branch) without recording now, or record now and admit. -/
def rate_limit_step (cfg : RLConfig) (hist : RequestHistory)
    (client_ip : String) (now : Int) : Bool × RequestHistory :=
  let pruned := (hist client_ip).filter (fun t => decide (now - t < cfg.RATE_WINDOW))
  if cfg.RATE_LIMIT ≤ pruned.length then
    (false, fun k => if k = client_ip then pruned else hist k)
  else
    (true, fun k => if k = client_ip then pruned ++ [now] else hist k)

/-- Run a sequence of requests (client key, arrival time) through the
rate limiter, collecting for each request its client key and decision. -/
def runCalls (cfg : RLConfig) (hist : RequestHistory) :
    List (String × Int) → List (String × Bool) × RequestHistory
  | [] => ([], hist)
  | (ip, now) :: rest =>
    let step := rate_limit_step cfg hist ip now
    let tail := runCalls cfg step.2 rest
    ((ip, step.1) :: tail.1, tail.2)

/-! ## The authorization gate require_authorized_email
(src/app.py lines 200..231) and render_unauthorized_access
(lines 234..279, an HTML page carrying the reason with HTTP 403). -/

/-- Outcome of the gate: either a short-circuit 403 page carrying the
reason string passed to render_unauthorized_access, or the wrapped
endpoint body runs with the principal (email, display name). -/
inductive GateOutcome where
  | unauthorized (razon : String) (status : Nat)
  | admitted (email : String) (nombre : String)
deriving DecidableEq

/-- require_authorized_email (src/app.py lines 200..231), applied to the
request's email query parameter (request.args.get with default "").
Missing or empty email short-circuits with "Email faltante"; an email
the registry rejects short-circuits with "Email no autorizado"; an
authorized email reaches the endpoint body with the matched principal. -/
def require_authorized_email (args_email : Option String) : GateOutcome :=
  let email := args_email.getD ""
  if email = "" then GateOutcome.unauthorized "Email faltante" 403
  else
    let r := is_email_authorized email
    if !r.1 then GateOutcome.unauthorized "Email no autorizado" 403
    else GateOutcome.admitted email r.2

lemma filter_window_eq (W now : Int) (l : List Int) :
    l.filter (fun t => !decide (W ≤ now - t)) =
      l.filter (fun t => decide (now - t < W)) := by
  refine List.filter_congr ?_
  intro x _
  rcases lt_or_le (now - x) W with h | h
  · simp [h, not_le.mpr h]
  · simp [h, not_lt.mpr h]

/-- C1: one rate-limiter call first drops the timestamps aged at least
the window, rejects without recording when the remaining count reaches
the limit, otherwise appends now and admits; limit 0 rejects always. -/
theorem rate_limit_prune_check_append (cfg : RLConfig) (hist : RequestHistory)
    (ip : String) (now : Int) :
    (cfg.RATE_LIMIT ≤ ((hist ip).filter (fun t => !decide (cfg.RATE_WINDOW ≤ now - t))).length →
      (rate_limit_step cfg hist ip now).1 = false ∧
      (rate_limit_step cfg hist ip now).2 ip =
        (hist ip).filter (fun t => !decide (cfg.RATE_WINDOW ≤ now - t))) ∧
    (((hist ip).filter (fun t => !decide (cfg.RATE_WINDOW ≤ now - t))).length < cfg.RATE_LIMIT →
      (rate_limit_step cfg hist ip now).1 = true ∧
      (rate_limit_step cfg hist ip now).2 ip =
        (hist ip).filter (fun t => !decide (cfg.RATE_WINDOW ≤ now - t)) ++ [now]) ∧
    (cfg.RATE_LIMIT = 0 → (rate_limit_step cfg hist ip now).1 = false) := by
  rw [filter_window_eq]
  refine ⟨fun h => ?_, fun h => ?_, fun h => ?_⟩
  · simp [rate_limit_step, h]
  · simp [rate_limit_step, not_le.mpr h]
  · simp [rate_limit_step, h]

theorem rate_limit_prune_check_append_witness :
    (rate_limit_step ⟨2, 60⟩ (fun _ => ([] : List Int)) "1.2.3.4" 0).1 = true ∧
    (rate_limit_step ⟨2, 60⟩ (fun _ => ([] : List Int)) "1.2.3.4" 0).2 "1.2.3.4" =
      (([] : List Int)).filter (fun t => !decide ((60 : Int) ≤ 0 - t)) ++ [(0 : Int)] := by
  exact (rate_limit_prune_check_append ⟨2, 60⟩ (fun _ => []) "1.2.3.4" 0).2.1 (by decide)

/-- C4: a rejected call records nothing: afterwards the client's stored
sequence is exactly the pruned sequence examined during the check. -/
theorem rejected_call_state_is_pruned (cfg : RLConfig) (hist : RequestHistory)
    (ip : String) (now : Int)
    (h : (rate_limit_step cfg hist ip now).1 = false) :
    (rate_limit_step cfg hist ip now).2 ip =
      (hist ip).filter (fun t => !decide (cfg.RATE_WINDOW ≤ now - t)) := by
  rw [filter_window_eq]
  by_cases hc : cfg.RATE_LIMIT ≤
      ((hist ip).filter (fun t => decide (now - t < cfg.RATE_WINDOW))).length
  · simp [rate_limit_step, hc]
  · simp [rate_limit_step, hc] at h

theorem rejected_call_state_is_pruned_witness :
    (rate_limit_step ⟨0, 60⟩ (fun _ => [(5 : Int)]) "1.2.3.4" 7).2 "1.2.3.4" =
      ([(5 : Int)]).filter (fun t => !decide ((60 : Int) ≤ 7 - t)) := by
  exact rejected_call_state_is_pruned ⟨0, 60⟩ (fun _ => [(5 : Int)]) "1.2.3.4" 7 (by decide)

/-- C5 counterexample: a rejected request does not grow the client's
sequence: with limit 0 the first request is rejected and the sequence
stays empty. -/
theorem rejected_probe_not_recorded_counterexample :
    (rate_limit_step ⟨0, 60⟩ (fun _ => ([] : List Int)) "1.2.3.4" 7).1 = false ∧
    (rate_limit_step ⟨0, 60⟩ (fun _ => ([] : List Int)) "1.2.3.4" 7).2 "1.2.3.4" = [] := by
  decide

/-- C5 amended: after any call the client's stored sequence is the pruned
sequence, extended by the arrival time exactly when the call was admitted. -/
theorem history_after_step (cfg : RLConfig) (hist : RequestHistory)
    (ip : String) (now : Int) :
    (rate_limit_step cfg hist ip now).2 ip =
      (hist ip).filter (fun t => decide (now - t < cfg.RATE_WINDOW)) ++
        (if (rate_limit_step cfg hist ip now).1 then [now] else []) := by
  by_cases hc : cfg.RATE_LIMIT ≤
      ((hist ip).filter (fun t => decide (now - t < cfg.RATE_WINDOW))).length
  · simp [rate_limit_step, hc]
  · simp [rate_limit_step, hc]

/-- C6: with limit 2 and window 60, the calls of one client at times
0, 10, 20, 61, 62 are decided admit, admit, reject, admit, reject. -/
theorem rate_limit_scenario_limit2_window60 :
    (runCalls ⟨2, 60⟩ (fun _ => [])
      [("1.2.3.4", 0), ("1.2.3.4", 10), ("1.2.3.4", 20), ("1.2.3.4", 61), ("1.2.3.4", 62)]).1 =
      [("1.2.3.4", true), ("1.2.3.4", true), ("1.2.3.4", false),
       ("1.2.3.4", true), ("1.2.3.4", false)] := by
  decide

/-- C10: the authorization set and the name table disagree on the
Cristina entry, so the authorized flag and the display name are
independent: the .com.ar.com address is authorized yet unnamed, the
.com.ar address is named yet unauthorized. -/
theorem registry_tables_mismatch :
    is_email_authorized "cristinaaguirre@dongaston.com.ar.com" = (true, "Usuario desconocido") ∧
    is_email_authorized "cristinaaguirre@dongaston.com.ar" = (false, "Cristina") ∧
    emails_autorizados.contains "cristinaaguirre@dongaston.com.ar.com" = true ∧
    nombres_por_email.lookup "cristinaaguirre@dongaston.com.ar.com" = none ∧
    emails_autorizados.contains "cristinaaguirre@dongaston.com.ar" = false ∧
    nombres_por_email.lookup "cristinaaguirre@dongaston.com.ar" = some "Cristina" := by
  decide

/-- C2 counterexample: the gate never consults validate_email: an email
the validator rejects gets the same not-listed outcome as a valid but
unlisted email, so no distinct invalid reason exists. -/
theorem gate_no_invalid_reason_counterexample :
    validate_email "a@b.com<script>" = false ∧
    require_authorized_email (some "a@b.com<script>") =
      GateOutcome.unauthorized "Email no autorizado" 403 ∧
    validate_email "unlisted@x.com" = true ∧
    require_authorized_email (some "unlisted@x.com") =
      GateOutcome.unauthorized "Email no autorizado" 403 := by
  decide

/-- C2 amended: past the rate limiter, a missing or empty email
parameter short-circuits with 403 and reason "Email faltante"; a
nonempty email the registry rejects (syntactically invalid ones
included, since the gate never consults the validator) short-circuits
with 403 and reason "Email no autorizado"; otherwise the endpoint body
runs with the matched principal. -/
theorem gate_decision_spec (args_email : Option String) :
    (args_email.getD "" = "" →
      require_authorized_email args_email = GateOutcome.unauthorized "Email faltante" 403) ∧
    (∀ e, args_email = some e → e ≠ "" → (is_email_authorized e).1 = false →
      require_authorized_email args_email = GateOutcome.unauthorized "Email no autorizado" 403) ∧
    (∀ e, args_email = some e → e ≠ "" → (is_email_authorized e).1 = true →
      require_authorized_email args_email = GateOutcome.admitted e (is_email_authorized e).2) := by
  refine ⟨fun h => ?_, fun e he hne ha => ?_, fun e he hne ha => ?_⟩
  · simp [require_authorized_email, h]
  · subst he
    simp only [Option.getD_some] at *
    simp [require_authorized_email, hne, ha]
  · subst he
    simp [require_authorized_email, hne, ha]

theorem gate_decision_spec_witness :
    require_authorized_email (some "jacosta@dongaston.com.ar") =
      GateOutcome.admitted "jacosta@dongaston.com.ar"
        (is_email_authorized "jacosta@dongaston.com.ar").2 := by
  exact (gate_decision_spec (some "jacosta@dongaston.com.ar")).2.2
    "jacosta@dongaston.com.ar" rfl (by decide) (by decide)

/-- C3 counterexample: a nonempty input whose normalized form is not in
the authorization set does not yield the unknown-name default: the name
table still knows it, so the result is (false, "Cristina"). -/
theorem is_email_authorized_unknown_counterexample :
    ("cristinaaguirre@dongaston.com.ar" : String) ≠ "" ∧
    emails_autorizados.contains (normalizeEmail "cristinaaguirre@dongaston.com.ar") = false ∧
    is_email_authorized "cristinaaguirre@dongaston.com.ar" ≠ (false, "Usuario desconocido") ∧
    is_email_authorized "cristinaaguirre@dongaston.com.ar" = (false, "Cristina") := by
  decide

/-- C3 amended: empty input yields (false, "Email vacío"); nonempty
input yields the pair of the authorization-set membership flag and the
name-table lookup defaulting to "Usuario desconocido", computed
independently; hence a match yields (true, registeredName) whenever the
name table also lists it, and a miss yields (false, "Usuario
desconocido") whenever the name table does not list it either. -/
theorem is_email_authorized_cases (e : String) :
    (e = "" → is_email_authorized e = (false, "Email vacío")) ∧
    (e ≠ "" → is_email_authorized e =
      (emails_autorizados.contains (normalizeEmail e),
       (nombres_por_email.lookup (normalizeEmail e)).getD "Usuario desconocido")) ∧
    (∀ n, e ≠ "" → emails_autorizados.contains (normalizeEmail e) = true →
      nombres_por_email.lookup (normalizeEmail e) = some n →
      is_email_authorized e = (true, n)) ∧
    (e ≠ "" → emails_autorizados.contains (normalizeEmail e) = false →
      nombres_por_email.lookup (normalizeEmail e) = none →
      is_email_authorized e = (false, "Usuario desconocido")) := by
  refine ⟨fun h => ?_, fun h => ?_, fun n h hm hl => ?_, fun h hm hl => ?_⟩
  · simp [is_email_authorized, h]
  · simp [is_email_authorized, h]
  · have hmem : normalizeEmail e ∈ emails_autorizados := List.elem_iff.mp hm
    simp [is_email_authorized, h, hmem, hl]
  · have hmem : normalizeEmail e ∉ emails_autorizados := by
      intro hx
      have : emails_autorizados.contains (normalizeEmail e) = true := List.elem_iff.mpr hx
      rw [this] at hm
      cases hm
    simp [is_email_authorized, h, hmem, hl]

theorem is_email_authorized_cases_witness :
    is_email_authorized "jacosta@dongaston.com.ar" = (true, "Julio") := by
  exact (is_email_authorized_cases "jacosta@dongaston.com.ar").2.2.1
    "Julio" (by decide) (by decide) (by decide)

/-- C7: validate_email returns false exactly for the empty string, a
string without an at sign, a string without a dot, or a string holding
a suspicious character, and true for every other string; in particular
on the four spec examples. -/
theorem validate_email_characterization (e : String) :
    (validate_email e = false ↔
      (e = "" ∨ '@' ∉ e.data ∨ '.' ∉ e.data ∨ ∃ c ∈ suspicious_chars, c ∈ e.data)) ∧
    validate_email "a@b.com" = true ∧
    validate_email "a@b.com<script>" = false ∧
    validate_email "" = false ∧
    validate_email "noatsign.com" = false := by
  refine ⟨?_, by decide, by decide, by decide, by decide⟩
  by_cases h1 : e = ""
  · simp [validate_email, h1]
  · by_cases h2 : '@' ∈ e.data
    · by_cases h3 : '.' ∈ e.data
      · by_cases h4 : ∃ c ∈ suspicious_chars, c ∈ e.data
        · simp [validate_email, pyContains, h1, h2, h3, h4, List.any_eq_true, List.elem_iff]
        · simp [validate_email, pyContains, h1, h2, h3, h4, List.any_eq_true, List.elem_iff]
      · simp [validate_email, pyContains, h1, h2, h3, List.elem_iff]
    · simp [validate_email, pyContains, h1, h2, List.elem_iff]
lemma charOfNat_toNat (n : Nat) (h : n.isValidChar) : (Char.ofNat n).toNat = n := by
  unfold Char.ofNat
  rw [dif_pos h]
  rfl

lemma isWs_lowerChar (c : Char) : isWs (lowerChar c) = isWs c := by
  unfold lowerChar
  split
  case isTrue h =>
    have hv : (c.toNat + 32).isValidChar := Or.inl (by omega)
    have ht : (Char.ofNat (c.toNat + 32)).toNat = c.toNat + 32 := charOfNat_toNat _ hv
    have h1 : isWs (Char.ofNat (c.toNat + 32)) = false := by
      simp only [isWs, ht, decide_eq_false_iff_not]
      omega
    have h2 : isWs c = false := by
      simp only [isWs, decide_eq_false_iff_not]
      omega
    rw [h1, h2]
  case isFalse h => rfl

lemma lowerChar_idem (c : Char) : lowerChar (lowerChar c) = lowerChar c := by
  by_cases h : 65 ≤ c.toNat ∧ c.toNat ≤ 90
  · have hv : (c.toNat + 32).isValidChar := Or.inl (by omega)
    have ht : (Char.ofNat (c.toNat + 32)).toNat = c.toNat + 32 := charOfNat_toNat _ hv
    have h1 : lowerChar c = Char.ofNat (c.toNat + 32) := by
      simp only [lowerChar]
      rw [if_pos h]
    have h2 : lowerChar (Char.ofNat (c.toNat + 32)) = Char.ofNat (c.toNat + 32) := by
      simp only [lowerChar]
      rw [if_neg]
      intro hcon
      rw [ht] at hcon
      omega
    rw [h1, h2]
  · have h1 : lowerChar c = c := by
      simp only [lowerChar]
      rw [if_neg h]
    rw [h1, h1]

lemma comp_isWs_lowerChar : isWs ∘ lowerChar = isWs := funext isWs_lowerChar

lemma comp_lowerChar : lowerChar ∘ lowerChar = lowerChar := funext lowerChar_idem

lemma dropWhile_isWs_map (l : List Char) :
    List.dropWhile isWs (l.map lowerChar) = (List.dropWhile isWs l).map lowerChar := by
  rw [List.dropWhile_map, comp_isWs_lowerChar]

lemma rdropWhile_isWs_map (l : List Char) :
    List.rdropWhile isWs (l.map lowerChar) = (List.rdropWhile isWs l).map lowerChar := by
  unfold List.rdropWhile
  rw [← List.map_reverse, dropWhile_isWs_map, List.map_reverse]

lemma pyStrip_map_lowerChar (l : List Char) :
    pyStrip (l.map lowerChar) = (pyStrip l).map lowerChar := by
  unfold pyStrip
  rw [dropWhile_isWs_map, rdropWhile_isWs_map]

lemma dropWhile_isWs_pyStrip (l : List Char) :
    List.dropWhile isWs (pyStrip l) = pyStrip l := by
  rw [List.dropWhile_eq_self_iff]
  intro hl
  have hpre : pyStrip l <+: List.dropWhile isWs l :=
    List.rdropWhile_prefix isWs (List.dropWhile isWs l)
  have hlen : (pyStrip l).length ≤ (List.dropWhile isWs l).length := hpre.length_le
  have hy : 0 < (List.dropWhile isWs l).length := lt_of_lt_of_le hl hlen
  have hget : (pyStrip l).get ⟨0, hl⟩ = (List.dropWhile isWs l).get ⟨0, hy⟩ := by
    have h0 := hpre.getElem (n := 0) hl
    simpa [List.get_eq_getElem] using h0
  rw [hget]
  exact List.dropWhile_eq_self_iff.mp (List.dropWhile_idempotent isWs l) hy

lemma pyStrip_idem (l : List Char) : pyStrip (pyStrip l) = pyStrip l := by
  have h1 : List.dropWhile isWs (pyStrip l) = pyStrip l := dropWhile_isWs_pyStrip l
  show List.rdropWhile isWs (List.dropWhile isWs (pyStrip l)) = pyStrip l
  rw [h1]
  show List.rdropWhile isWs (List.rdropWhile isWs (List.dropWhile isWs l)) = pyStrip l
  rw [List.rdropWhile_idempotent]
  rfl

lemma normalizeEmail_idem (s : String) :
    normalizeEmail (normalizeEmail s) = normalizeEmail s := by
  unfold normalizeEmail
  show String.mk ((pyStrip ((pyStrip s.data).map lowerChar)).map lowerChar) = _
  rw [pyStrip_map_lowerChar, pyStrip_idem, List.map_map, comp_lowerChar]

lemma normalizeEmail_empty : normalizeEmail "" = "" := by decide

/-- C8 counterexample: a whitespace-only input breaks normalization
invariance: it is nonempty, so it reaches the lookup and yields the
unknown-name default, while its normalized form is empty and yields the
empty-input rejection instead. -/
theorem normalize_invariance_counterexample :
    normalizeEmail " " = "" ∧
    is_email_authorized " " = (false, "Usuario desconocido") ∧
    is_email_authorized (normalizeEmail " ") = (false, "Email vacío") ∧
    is_email_authorized " " ≠ is_email_authorized (normalizeEmail " ") := by
  decide

/-- C8 amended: is_email_authorized is invariant under normalizing its
argument for every input whose trimmed, lowercased form is nonempty
(whitespace-only inputs differ, hitting the empty-input branch only
after normalization); in particular the spec's instance holds. -/
theorem is_email_authorized_normalize_invariant :
    (∀ e, normalizeEmail e ≠ "" →
      is_email_authorized e = is_email_authorized (normalizeEmail e)) ∧
    is_email_authorized "  USER@Example.com " = is_email_authorized "user@example.com" := by
  refine ⟨fun e hn => ?_, by decide⟩
  have he : e ≠ "" := by
    intro h
    subst h
    exact hn normalizeEmail_empty
  simp [is_email_authorized, he, hn, normalizeEmail_idem]

theorem is_email_authorized_normalize_invariant_witness :
    is_email_authorized "  USER@Example.com " =
      is_email_authorized (normalizeEmail "  USER@Example.com ") := by
  exact is_email_authorized_normalize_invariant.1 "  USER@Example.com " (by decide)

lemma step_frame (cfg : RLConfig) (hist : RequestHistory) (ip k : String) (now : Int)
    (h : ip ≠ k) : (rate_limit_step cfg hist ip now).2 k = hist k := by
  by_cases hc : cfg.RATE_LIMIT ≤
      ((hist ip).filter (fun t => decide (now - t < cfg.RATE_WINDOW))).length
  · simp only [rate_limit_step]
    rw [if_pos hc]
    exact if_neg (Ne.symm h)
  · simp only [rate_limit_step]
    rw [if_neg hc]
    exact if_neg (Ne.symm h)

lemma step_local (cfg : RLConfig) (hist hist' : RequestHistory) (k : String) (now : Int)
    (h : hist k = hist' k) :
    (rate_limit_step cfg hist k now).1 = (rate_limit_step cfg hist' k now).1 ∧
    (rate_limit_step cfg hist k now).2 k = (rate_limit_step cfg hist' k now).2 k := by
  simp only [rate_limit_step, h]
  constructor <;> split <;> simp

lemma runCalls_filter_key (cfg : RLConfig) (k : String) (calls : List (String × Int)) :
    ∀ (hist hist' : RequestHistory), hist k = hist' k →
      ((runCalls cfg hist calls).1.filter (fun p => p.1 == k) =
        (runCalls cfg hist' (calls.filter (fun c => c.1 == k))).1) ∧
      ((runCalls cfg hist calls).2 k =
        (runCalls cfg hist' (calls.filter (fun c => c.1 == k))).2 k) := by
  induction calls with
  | nil =>
    intro hist hist' h
    simp [runCalls, h]
  | cons c rest ih =>
    intro hist hist' h
    obtain ⟨ip, now⟩ := c
    by_cases hip : ip = k
    · subst hip
      have hstep := step_local cfg hist hist' ip now h
      have hrec := ih (rate_limit_step cfg hist ip now).2
        (rate_limit_step cfg hist' ip now).2 hstep.2
      constructor
      · simp only [runCalls, List.filter_cons]
        simp [runCalls, hstep.1, hrec.1]
      · simp only [runCalls, List.filter_cons]
        simp [runCalls, hrec.2]
    · have hframe : (rate_limit_step cfg hist ip now).2 k = hist k :=
        step_frame cfg hist ip k now hip
      have hrec := ih (rate_limit_step cfg hist ip now).2 hist' (hframe.trans h)
      have hbeq : (ip == k) = false := beq_eq_false_iff_ne.mpr hip
      constructor
      · simp only [runCalls, List.filter_cons]
        simp [hbeq, hrec.1]
      · simp only [runCalls, List.filter_cons]
        simp [hbeq, hrec.2]

/-- C9: the rate limiter isolates client keys: in any interleaved call
sequence, the decisions received by one key and its final stored
timestamps equal those of the run from which every other key's calls
are removed. -/
theorem rate_limiter_client_isolation (cfg : RLConfig) (hist : RequestHistory)
    (calls : List (String × Int)) (k : String) :
    (runCalls cfg hist calls).1.filter (fun p => p.1 == k) =
      (runCalls cfg hist (calls.filter (fun c => c.1 == k))).1 ∧
    (runCalls cfg hist calls).2 k =
      (runCalls cfg hist (calls.filter (fun c => c.1 == k))).2 k :=
  runCalls_filter_key cfg k calls hist hist rfl

theorem validate_email_characterization_witness :
    validate_email "a@b.com" = true :=
  (validate_email_characterization "a@b.com").2.1

theorem history_after_step_witness :
    (rate_limit_step ⟨1, 60⟩ (fun _ => ([] : List Int)) "1.2.3.4" 3).2 "1.2.3.4" =
      (([] : List Int)).filter (fun t => decide ((3 : Int) - t < 60)) ++
        (if (rate_limit_step ⟨1, 60⟩ (fun _ => ([] : List Int)) "1.2.3.4" 3).1
          then [(3 : Int)] else []) :=
  history_after_step ⟨1, 60⟩ (fun _ => []) "1.2.3.4" 3

theorem rate_limiter_client_isolation_witness :
    (runCalls ⟨1, 60⟩ (fun _ => []) [("a", 0), ("b", 1), ("a", 2)]).1.filter
        (fun p => p.1 == "a") =
      (runCalls ⟨1, 60⟩ (fun _ => [])
        ([("a", 0), ("b", 1), ("a", 2)].filter (fun c => c.1 == "a"))).1 ∧
    (runCalls ⟨1, 60⟩ (fun _ => []) [("a", 0), ("b", 1), ("a", 2)]).2 "a" =
      (runCalls ⟨1, 60⟩ (fun _ => [])
        ([("a", 0), ("b", 1), ("a", 2)].filter (fun c => c.1 == "a"))).2 "a" :=
  rate_limiter_client_isolation ⟨1, 60⟩ (fun _ => []) [("a", 0), ("b", 1), ("a", 2)] "a"

end ConfirmaTelegram
